import Mathlib

/-!
Verification of the Neoauto scraper's normalization and market-metrics engine.

This file gives a shallow embedding, in Lean 4, of the core data pipeline of
the repository:

* the rule-based model classifier (`load_rules` in `main.py`,
  `_load_env_and_rules` in `Core/supabase_downloader_daily.py`, and
  `get_model_base` in `main.py`),
* the listing cleaner `process_data` (`main.py`),
* the market aggregator `calculate_metrics` (`main.py`, structurally the same
  computation as `MarketAnalyzer._calculate_model_metrics` in
  `Core/market_analyzer.py`),
* the lead filter `filter_attractive_leads` (`Core/lead_filter.py`).

Conventions of the embedding:

* Python strings are Lean `String`s; `.lower()`, `.strip()`, `.title()`,
  `.startswith()` and the `in` substring test are modelled character-wise on
  `String.data` (the data processed by the pipeline is ASCII).
* pandas cells that may hold NaN are `Option` values (`none` = NaN/null).
* pandas numeric columns are `ℚ` (prices, means, ratios) and `ℤ` (years,
  priorities); `pd.to_numeric(errors = "coerce")` is modelled by an integer
  parser returning `Option Int` (the rule/listing feeds carry integer
  numerals).
* `DataFrame`s are `List`s of per-stage row structures; `sort_values` (a
  stable sort) is modelled by `List.insertionSort`, which is also stable, so
  both produce the identical output list for the same key relation.
* in-place mutation of an argument frame (`Core/lead_filter.py`) is modelled
  by returning the post-mutation state of that frame alongside the result.
-/

namespace Neoauto


/-! ### Python string primitives -/

/-- Python `str.lower()` (character-wise, as for ASCII data). -/
def pyLower (s : String) : String := ⟨s.data.map Char.toLower⟩

/-- Python `str.strip()`: drop leading and trailing whitespace. -/
def pyStrip (s : String) : String :=
  ⟨((s.data.dropWhile Char.isWhitespace).reverse.dropWhile Char.isWhitespace).reverse⟩

/-- Helper for `pyTitle`: `prevAlpha` says whether the previous character was
alphabetic. Python `str.title()` uppercases a letter that follows a
non-letter and lowercases every other letter. -/
def pyTitleAux : Bool → List Char → List Char
  | _, [] => []
  | prevAlpha, c :: cs =>
    (if c.isAlpha then (if prevAlpha then c.toLower else c.toUpper) else c)
      :: pyTitleAux c.isAlpha cs

/-- Python `str.title()`. -/
def pyTitle (s : String) : String := ⟨pyTitleAux false s.data⟩

/-- Python `p in s` substring test on character lists. -/
def pySubstr (p : List Char) : List Char → Bool
  | [] => p.isEmpty
  | c :: cs => p.isPrefixOf (c :: cs) || pySubstr p cs

/-- pandas `astype(str)` on a possibly-NaN cell: NaN prints as `"nan"`. -/
def astypeStr (c : Option String) : String := c.getD "nan"

/-- All-digit parse of a character list (empty list fails). -/
def parseNatDigits (cs : List Char) : Option Nat :=
  if cs.isEmpty then none
  else cs.foldl
    (fun acc c => acc.bind fun n =>
      if c.isDigit then some (n * 10 + (c.toNat - 48)) else none)
    (some 0)

/-- Integer parse modelling `pd.to_numeric(errors = "coerce")` on the integer
numerals carried by the rule and listing feeds (optional sign + digits);
anything else coerces to NaN (`none`). -/
def parseIntStr (s : String) : Option Int :=
  match s.data with
  | [] => none
  | c :: cs =>
    if c = '-' then (parseNatDigits cs).map fun n => -(n : Int)
    else (parseNatDigits (c :: cs)).map fun n => (n : Int)

/-- Strict lexicographic comparison by code point, as Python `<` on strings. -/
def strLtB : List Char → List Char → Bool
  | [], [] => false
  | [], _ :: _ => true
  | _ :: _, [] => false
  | a :: as, b :: bs => a.toNat < b.toNat || (a = b && strLtB as bs)

/-- Non-strict string order used to model Python `sorted` on strings. -/
def strLeP (s t : String) : Prop := strLtB s.data t.data = true ∨ s = t

instance : DecidableRel strLeP := fun s t => by unfold strLeP; infer_instance

/-! ### The rule table and the classifier -/

/-- One loaded normalization rule, with the CSV's column names
(`Core/reglas_modelos_base.csv` schema). `pattern_length` is the sort column
computed by `Core/supabase_downloader_daily.py` line 70. -/
structure Rule where
  make_rule_match : String
  model_pattern_input_lower : String
  match_type : String
  model_base_target : String
  priority : Int
  pattern_length : Nat
  deriving DecidableEq

/-- One raw CSV row of the rule source: each cell may be missing (NaN). -/
structure RawRule where
  make_rule_match : Option String
  model_pattern_input_lower : Option String
  match_type : Option String
  model_base_target : Option String
  priority : Option String
  deriving DecidableEq

/-- Column normalization of `_load_env_and_rules`
(`Core/supabase_downloader_daily.py` lines 65-70): `make_rule_match` and
`model_pattern_input_lower` are `astype(str).str.lower().str.strip()`,
`model_base_target` is stripped only, `match_type` lowered and stripped,
`priority` is `to_numeric(errors="coerce").fillna(0).astype(int)`, and
`pattern_length` is the length of the normalized pattern. -/
def normalizeRule (r : RawRule) : Rule :=
  let pat := pyStrip (pyLower (astypeStr r.model_pattern_input_lower))
  { make_rule_match := pyStrip (pyLower (astypeStr r.make_rule_match))
    model_pattern_input_lower := pat
    match_type := pyStrip (pyLower (astypeStr r.match_type))
    model_base_target := pyStrip (astypeStr r.model_base_target)
    priority := ((r.priority.bind parseIntStr).getD 0)
    pattern_length := pat.data.length }

/-- Sort key relation of
`sort_values(by=["priority", "pattern_length"], ascending=[False, False])`:
higher priority first; at equal priority, longer pattern first. -/
def rulePrio (a b : Rule) : Prop :=
  b.priority < a.priority ∨ (a.priority = b.priority ∧ b.pattern_length ≤ a.pattern_length)

instance : DecidableRel rulePrio := fun a b => by unfold rulePrio; infer_instance

instance : IsTotal Rule rulePrio := ⟨by intro a b; unfold rulePrio; omega⟩

instance : IsTrans Rule rulePrio := ⟨by intro a b c; unfold rulePrio; omega⟩

/-- Rule loading of `_load_env_and_rules`
(`Core/supabase_downloader_daily.py` lines 62-71): normalize the columns and
stable-sort by (priority desc, pattern_length desc). pandas `sort_values`
is a stable sort, as is `List.insertionSort`. -/
def load_env_and_rules (raws : List RawRule) : List Rule :=
  List.insertionSort rulePrio (raws.map normalizeRule)

/-- The per-rule `match_type` test of `get_model_base`
(`main.py` lines 96-98). -/
def ruleMatches (r : Rule) (model_lower : String) : Bool :=
  (r.match_type == "exact" && model_lower == r.model_pattern_input_lower)
    || (r.match_type == "startswith"
          && r.model_pattern_input_lower.data.isPrefixOf model_lower.data)
    || (r.match_type == "contains"
          && pySubstr r.model_pattern_input_lower.data model_lower.data)

/-- The classifier `get_model_base` (`main.py` lines 89-100). The
module-level `LOADED_MODEL_RULES` singleton is passed explicitly as `rules`
(an empty list models both the `None`/empty-table cases, where the loop body
never runs). `model_name = none` models a NaN model cell. -/
def get_model_base (model_name : Option String) (make_name : String)
    (rules : List Rule) : String :=
  match model_name with
  | none => "Desconocido"
  | some m =>
    if m = "Desconocido" then "Desconocido"
    else
      let model_lower := pyStrip (pyLower m)
      let make_lower := pyStrip (pyLower make_name)
      let rules_for_make := rules.filter fun r => r.make_rule_match == make_lower
      match rules_for_make.find? (fun r => ruleMatches r model_lower) with
      | some r => r.model_base_target
      | none => m

/-- The two Corolla rules of the spec's concrete classifier scenario, as raw
CSV rows (deliberately listed generic-rule first, so that ordering is up to
the loader). -/
def demoRules : List RawRule :=
  [ { make_rule_match := some "toyota", model_pattern_input_lower := some "corolla",
      match_type := some "startswith", model_base_target := some "Corolla",
      priority := some "5" },
    { make_rule_match := some "toyota", model_pattern_input_lower := some "corolla cross",
      match_type := some "startswith", model_base_target := some "Corolla Cross",
      priority := some "10" } ]

/-- A `contains` rule whose pattern is empty (a whitespace-only CSV cell
strips to the empty pattern); it matches every model string, including the
empty one. -/
def emptyPatternRule : Rule :=
  { make_rule_match := "toyota", model_pattern_input_lower := "",
    match_type := "contains", model_base_target := "Vacio",
    priority := 0, pattern_length := 0 }

/-- A rule registered only for make `toyota`. -/
def trackerRuleToyota : Rule :=
  { make_rule_match := "toyota", model_pattern_input_lower := "tracker",
    match_type := "contains", model_base_target := "Tracker",
    priority := 0, pattern_length := 7 }

/-! ### `load_rules` of `main.py` (lines 57-68)

Unlike the daily loader above, `main.py` applies no numeric coercion to the
`priority` column: it reads the CSV, lowercases/strips only
`make_rule_match` and `model_pattern_input_lower`, and sorts by the
`priority` and `pattern_length` columns as loaded, inside a
`try/except` whose handler replaces the table by an empty `DataFrame`.

`pd.read_csv` types the `priority` column as a whole: if every present cell
parses as a number the column is numeric (missing cells become NaN floats);
otherwise every present cell stays a string and missing cells are still NaN
floats. Multi-key `sort_values` lexsorts each key through ordered
`Categorical` codes, in which NaN is coded apart and never compared with
the values, so a string/NaN mix sorts without error: strings compare among
themselves (Python string order) and NaN rows go last (`na_position`
defaults to `"last"`), with the secondary `pattern_length` key breaking
ties. The `try/except` of lines 60-68 therefore never fires on priority
data; no row is dropped and nothing is defaulted to 0. -/

/-- A `priority` cell after `pd.read_csv` column-type inference. -/
inductive PCell where
  | num (n : Int)
  | nan
  | txt (s : String)
  deriving DecidableEq

/-- A rule row as loaded by `main.py`: only `make_rule_match` and
`model_pattern_input_lower` are normalized (lines 63-64); the other columns
keep their raw cells. `pattern_length` is a numeric column carried by the
weekly CSV itself (`main.py` sorts by it but never computes it). -/
structure RuleM where
  make_rule_match : String
  model_pattern_input_lower : String
  match_type : Option String
  model_base_target : Option String
  priority : PCell
  pattern_length : Int
  deriving DecidableEq

/-- A raw weekly-CSV row before column-type inference. -/
structure RawRuleM where
  make_rule_match : Option String
  model_pattern_input_lower : Option String
  match_type : Option String
  model_base_target : Option String
  priority : Option String
  pattern_length : Int
  deriving DecidableEq

/-- `read_csv` inference for one `priority` cell, given whether the whole
column parsed as numeric. -/
def inferPriorityCell (allNumeric : Bool) (c : Option String) : PCell :=
  match c with
  | none => PCell.nan
  | some s => if allNumeric then PCell.num ((parseIntStr s).getD 0) else PCell.txt s

/-- Whether every present `priority` cell of the source parses as a number
(then `read_csv` makes the column numeric). -/
def priorityColumnNumeric (raws : List RawRuleM) : Bool :=
  raws.all fun r => (r.priority.map fun s => (parseIntStr s).isSome).getD true

/-- The column work of `main.py` `load_rules` lines 63-64 on one row, plus
`read_csv`'s typing of the `priority` cell. -/
def normalizeRuleM (allNumeric : Bool) (r : RawRuleM) : RuleM :=
  { make_rule_match := pyStrip (pyLower (astypeStr r.make_rule_match))
    model_pattern_input_lower := pyStrip (pyLower (astypeStr r.model_pattern_input_lower))
    match_type := r.match_type
    model_base_target := r.model_base_target
    priority := inferPriorityCell allNumeric r.priority
    pattern_length := r.pattern_length }

/-- Descending-order comparison of two `priority` cells as
`sort_values(ascending=False)` sees them: numbers by value, strings by
Python string order, NaN placed last. (A number/string pair never occurs:
`read_csv` types the column homogeneously, see the section comment.) -/
def pcellBefore : PCell → PCell → Prop
  | PCell.num m, PCell.num n => n < m
  | PCell.num _, PCell.nan => True
  | PCell.txt s, PCell.txt t => strLtB t.data s.data = true
  | PCell.txt _, PCell.nan => True
  | _, _ => False

instance : DecidableRel pcellBefore := fun a b => by
  unfold pcellBefore
  match a, b with
  | PCell.num m, PCell.num n => exact inferInstance
  | PCell.num _, PCell.nan => exact inferInstance
  | PCell.num _, PCell.txt _ => exact inferInstance
  | PCell.nan, _ => exact inferInstance
  | PCell.txt _, PCell.num _ => exact inferInstance
  | PCell.txt _, PCell.nan => exact inferInstance
  | PCell.txt _, PCell.txt _ => exact inferInstance

/-- Tie test between two `priority` cells (then `pattern_length` decides). -/
def pcellTie : PCell → PCell → Prop
  | PCell.num m, PCell.num n => m = n
  | PCell.nan, PCell.nan => True
  | PCell.txt s, PCell.txt t => s = t
  | _, _ => False

instance : DecidableRel pcellTie := fun a b => by
  unfold pcellTie
  match a, b with
  | PCell.num m, PCell.num n => exact inferInstance
  | PCell.num _, PCell.nan => exact inferInstance
  | PCell.num _, PCell.txt _ => exact inferInstance
  | PCell.nan, PCell.num _ => exact inferInstance
  | PCell.nan, PCell.nan => exact inferInstance
  | PCell.nan, PCell.txt _ => exact inferInstance
  | PCell.txt _, PCell.num _ => exact inferInstance
  | PCell.txt _, PCell.nan => exact inferInstance
  | PCell.txt _, PCell.txt _ => exact inferInstance

/-- Sort key relation of `main.py` line 65:
`sort_values(by=["priority", "pattern_length"], ascending=[False, False])`
over the loaded cells. -/
def ruleMPrio (a b : RuleM) : Prop :=
  pcellBefore a.priority b.priority
    ∨ (pcellTie a.priority b.priority ∧ b.pattern_length ≤ a.pattern_length)

instance : DecidableRel ruleMPrio := fun a b => by unfold ruleMPrio; infer_instance

/-- `load_rules` of `main.py` (lines 57-68): normalize the two string
columns and stable-sort by (priority desc, pattern_length desc) with the
`priority` column typed as loaded — numbers, or verbatim strings when any
present cell is non-numeric, with missing cells as NaN sorting last. -/
def load_rules (raws : List RawRuleM) : List RuleM :=
  List.insertionSort ruleMPrio (raws.map (normalizeRuleM (priorityColumnNumeric raws)))

/-- A weekly-CSV row with an unparseable `priority` text. -/
def rowTxtPriority : RawRuleM :=
  { make_rule_match := some "toyota", model_pattern_input_lower := some "corolla cross",
    match_type := some "startswith", model_base_target := some "Corolla Cross",
    priority := some "high", pattern_length := 13 }

/-- A weekly-CSV row whose `priority` cell is missing. -/
def rowMissingPriority : RawRuleM :=
  { make_rule_match := some "toyota", model_pattern_input_lower := some "corolla",
    match_type := some "startswith", model_base_target := some "Corolla",
    priority := none, pattern_length := 7 }

/-- A weekly-CSV row with a numeric `priority`. -/
def rowNumPriority : RawRuleM :=
  { make_rule_match := some "toyota", model_pattern_input_lower := some "hilux",
    match_type := some "contains", model_base_target := some "Hilux",
    priority := some "5", pattern_length := 5 }

/-! ### The listing cleaner `process_data` (`main.py` lines 102-135) -/

/-- The hard-coded make synonym map (`main.py` lines 46-52), in source
order. -/
def TARGET_MAKE_MAPPING : List (String × String) :=
  [ ("mercedes benz", "mercedes"), ("mercedes-benz", "mercedes"), ("mercedes", "mercedes"),
    ("vw", "volkswagen"), ("volkswagen", "volkswagen"), ("toyota", "toyota"), ("bmw", "bmw"),
    ("nissan", "nissan"), ("hyundai", "hyundai"), ("subaru", "subaru"), ("mazda", "mazda"),
    ("ford", "ford"), ("kia", "kia"), ("jeep", "jeep"), ("audi", "audi"), ("honda", "honda"),
    ("chevrolet", "chevrolet"), ("mitsubishi", "mitsubishi"), ("suzuki", "suzuki"),
    ("volvo", "volvo") ]

/-- `sorted(list(set(TARGET_MAKE_MAPPING.values())))` (`main.py` line 53). -/
def STANDARDIZED_TARGET_MAKES : List String :=
  List.insertionSort strLeP ((TARGET_MAKE_MAPPING.map Prod.snd).dedup)

/-- The `Make` column chain of `main.py` line 108:
`fillna("Desconocido").astype(str).str.strip().str.lower()`, mapped through
`TARGET_MAKE_MAPPING`, with unmapped entries falling back to the ORIGINAL
cell lowercased (`fillna(df["Make"].str.lower())`, applied to the raw
column, hence unstripped and still NaN for a NaN cell), then
`.str.title()`. -/
def canonicalizeMake (cell : Option String) : Option String :=
  let key := pyLower (pyStrip (cell.getD "Desconocido"))
  match TARGET_MAKE_MAPPING.lookup key with
  | some std => some (pyTitle std)
  | none => (cell.map fun s => pyTitle (pyLower s))

/-- Characters kept by the slug regex `[^a-z0-9\s-]` removal
(`main.py` line 111), applied to the lowercased make+model string. -/
def slugKeep (c : Char) : Bool :=
  (97 ≤ c.toNat && c.toNat ≤ 122) || c.isDigit || c.isWhitespace || c = '-'

/-- Replace every maximal whitespace run by one hyphen (`\s+` → `"-"`);
`prevWs` records whether the previous character was whitespace. -/
def collapseWsAux : Bool → List Char → List Char
  | _, [] => []
  | prevWs, c :: cs =>
    if c.isWhitespace then
      if prevWs then collapseWsAux true cs
      else '-' :: collapseWsAux true cs
    else c :: collapseWsAux false cs

/-- The slug of `main.py` line 111:
`(Make + " " + Model_Base).lower()`, drop `[^a-z0-9\s-]`, `\s+` → `"-"`. -/
def slugOf (make mb : String) : String :=
  ⟨collapseWsAux false ((pyLower (make ++ " " ++ mb)).data.filter slugKeep)⟩

/-- One raw listing record as fetched from the `autos_detalles` table; every
cell may be null. -/
structure RawRow where
  URL : Option String
  DateTime : Option String
  Make : Option String
  Model : Option String
  Price : Option String
  Year : Option String
  unico_dueno : Option String
  deriving DecidableEq

/-- A row after the standardization lines 108-111 of `process_data`:
canonical `Make`, stripped `Model`, classified `Model_Base`, `slug`; the
other cells still raw. -/
structure SRow where
  URL : Option String
  DateTime : Option String
  Make : String
  Model : String
  Model_Base : String
  slug : String
  Price : Option String
  Year : Option String
  unico_dueno : Option String
  deriving DecidableEq

/-- A cleaned listing row (`df_clean` at the end of `process_data`): the
indispensable columns are all present and typed, and
`Apariciones_URL_Hist` counts the rows of the cleaned frame sharing the
row's URL (`main.py` line 131). -/
structure PRow where
  URL : String
  DateTime : String
  Make : String
  Model : String
  Model_Base : String
  slug : String
  Price : ℚ
  Year : Int
  unico_dueno : Option String
  Apariciones_URL_Hist : Nat
  deriving DecidableEq

/-- Lines 108-111 of `process_data` on one row. The `.getD "Desconocido"`
for `Make` is unreachable: `process_data` raises before reaching a row with
a null make (see `process_data`). -/
def standardizeRow (rules : List Rule) (r : RawRow) : SRow :=
  let mk := (canonicalizeMake r.Make).getD "Desconocido"
  let md := pyStrip (r.Model.getD "Desconocido")
  let mb := get_model_base (some md) mk rules
  { URL := r.URL, DateTime := r.DateTime, Make := mk, Model := md, Model_Base := mb,
    slug := slugOf mk mb, Price := r.Price, Year := r.Year,
    unico_dueno := r.unico_dueno }

/-- `drop_duplicates(subset=["URL", "DateTime"])`, keeping the first
occurrence of each (URL, DateTime) pair (pandas treats NaN keys as equal). -/
def dropDuplicatesUD (seen : List (Option String × Option String)) :
    List SRow → List SRow
  | [] => []
  | r :: rs =>
    if (r.URL, r.DateTime) ∈ seen then dropDuplicatesUD seen rs
    else r :: dropDuplicatesUD ((r.URL, r.DateTime) :: seen) rs

/-- `dropna` over the indispensable columns plus the numeric typing of
`Price`/`Year` (lines 118-124): a row survives iff URL and DateTime are
present and Price and Year coerce to numbers (`Make`, `Model`, `Model_Base`
are always present strings at this point); `Year` is cast to int. -/
def finalizeRow (r : SRow) : Option PRow :=
  match r.URL, r.DateTime, r.Price.bind parseIntStr, r.Year.bind parseIntStr with
  | some u, some d, some p, some y =>
    some { URL := u, DateTime := d, Make := r.Make, Model := r.Model,
           Model_Base := r.Model_Base, slug := r.slug, Price := (p : ℚ), Year := y,
           unico_dueno := r.unico_dueno, Apariciones_URL_Hist := 0 }
  | _, _, _, _ => none

/-- `process_data` (`main.py` lines 102-135). If any row's raw `Make` cell
is null, the canonicalized make of that row is NaN and the row-wise
`get_model_base` apply at line 110 calls `.lower()` on a float, raising
`AttributeError` — modelled by the `Except.error` branch. Otherwise:
standardize (lines 108-111), keep only target makes (line 114), coerce
numerics, deduplicate by (URL, DateTime), drop rows missing indispensable
fields (lines 118-124), and attach the per-URL appearance count
(line 131). -/
def process_data (rules : List Rule) (raws : List RawRow) :
    Except Unit (List PRow) :=
  if raws.any fun r => r.Make.isNone then Except.error ()
  else
    let std := raws.map (standardizeRow rules)
    let filtered := std.filter fun r => STANDARDIZED_TARGET_MAKES.contains (pyLower r.Make)
    let deduped := dropDuplicatesUD [] filtered
    let clean := deduped.filterMap finalizeRow
    Except.ok (clean.map fun r =>
      { r with Apariciones_URL_Hist := (clean.filter fun x => x.URL == r.URL).length })

/-! ### The market aggregator `calculate_metrics` (`main.py` lines 137-151) -/

/-- pandas `mean` (the empty case, `NaN`, is modelled as `0`; it never
arises for a group, which is nonempty by construction). -/
def meanQ (l : List ℚ) : ℚ := l.sum / l.length

/-- pandas `median`: sort ascending, take the middle element (odd length) or
the average of the two middle elements (even length). -/
def medianQ (l : List ℚ) : ℚ :=
  let s := List.insertionSort (fun a b : ℚ => a ≤ b) l
  let n := s.length
  if n = 0 then 0
  else if n % 2 = 1 then s.getD (n / 2) 0
  else (s.getD (n / 2 - 1) 0 + s.getD (n / 2) 0) / 2

/-- The three-part grouping key of `groupby(["Make", "Model_Base", "slug"])`. -/
def rowKey (r : PRow) : String × String × String := (r.Make, r.Model_Base, r.slug)

/-- The fast-selling-ratio of one slug group (`main.py` line 146):
`(g.value_counts() == 1).sum() / g.nunique()` over the group's URL series,
`0` when the group has no distinct URL. -/
def fsrOfSlug (df : List PRow) (s : String) : ℚ :=
  let g := (df.filter fun r => r.slug == s).map PRow.URL
  if 0 < g.dedup.length then
    ((g.dedup.filter fun u => g.count u == 1).length : ℚ) / (g.dedup.length : ℚ)
  else 0

/-- One aggregated market-metrics row (`main.py` lines 140-150, after the
rename of line 150). -/
structure MetricRow where
  make_original_case : String
  model_original_case : String
  slug : String
  unique_listings : Nat
  median_price : ℚ
  mean_price : ℚ
  mean_year : ℚ
  fast_selling_ratio : ℚ
  deriving DecidableEq

/-- `calculate_metrics` (`main.py` lines 137-151): group the cleaned frame
by (Make, Model_Base, slug); per group compute `unique_listings` (distinct
URLs), `median_price`, `mean_price`, `mean_year`; left-merge the per-slug
fast-selling ratio (the fsr frame has exactly one row per slug of `df`, so
the merge attaches `fsrOfSlug df` to each group's slug). pandas sorts the
group keys; key order is irrelevant to every property proved here, so the
embedding keeps first-appearance order. -/
def calculate_metrics (df : List PRow) : List MetricRow :=
  ((df.map rowKey).dedup).map fun k =>
    let rows := df.filter fun r => rowKey r == k
    { make_original_case := k.1, model_original_case := k.2.1, slug := k.2.2,
      unique_listings := (rows.map PRow.URL).dedup.length,
      median_price := medianQ (rows.map PRow.Price),
      mean_price := meanQ (rows.map PRow.Price),
      mean_year := meanQ (rows.map fun r => (r.Year : ℚ)),
      fast_selling_ratio := fsrOfSlug df k.2.2 }

/-- Two cleaned rows sharing a URL but classified under two different
(classifiable) model bases. -/
def pr1 : PRow :=
  { URL := "u1", DateTime := "d1", Make := "Toyota", Model := "Corolla",
    Model_Base := "Corolla", slug := "toyota-corolla", Price := 10000, Year := 2020,
    unico_dueno := none, Apariciones_URL_Hist := 2 }

/-- See `pr1`. -/
def pr2 : PRow :=
  { URL := "u1", DateTime := "d2", Make := "Toyota", Model := "Hilux",
    Model_Base := "Hilux", slug := "toyota-hilux", Price := 12000, Year := 2019,
    unico_dueno := none, Apariciones_URL_Hist := 2 }

/-- Three consistent cleaned rows: URL `"u1"` observed twice under the
Corolla key, URL `"u2"` once under the Hilux key. -/
def w1 : PRow :=
  { URL := "u1", DateTime := "d1", Make := "Toyota", Model := "Corolla",
    Model_Base := "Corolla", slug := "toyota-corolla", Price := 10000, Year := 2020,
    unico_dueno := none, Apariciones_URL_Hist := 2 }

/-- See `w1`. -/
def w2 : PRow :=
  { URL := "u1", DateTime := "d2", Make := "Toyota", Model := "Corolla",
    Model_Base := "Corolla", slug := "toyota-corolla", Price := 10500, Year := 2020,
    unico_dueno := none, Apariciones_URL_Hist := 2 }

/-- See `w1`. -/
def w3 : PRow :=
  { URL := "u2", DateTime := "d1", Make := "Toyota", Model := "Hilux SR",
    Model_Base := "Hilux", slug := "toyota-hilux", Price := 15000, Year := 2021,
    unico_dueno := none, Apariciones_URL_Hist := 1 }

/-! ### The lead filter `filter_attractive_leads` (`Core/lead_filter.py`)

The caller (`run_market_analysis`, `main.py` lines 262-265) passes the
recent-listings frame and the dashboard metrics frame. The function first
returns early on empty inputs, then MUTATES the passed leads frame:
`df_leads["DateTime"] = pd.to_datetime(...)` and
`df_leads.dropna(subset=["DateTime"], inplace=True)` act on the caller's
object. The embedding returns the post-call state of the leads frame
alongside the result. The timestamp of a lead is `Option Int`
(seconds; `none` = unparseable, i.e. `NaT` after `errors="coerce"`);
`timedelta(days=1)` is 86400 seconds. -/

/-- One recent-listings row as handed to the lead filter (a slice of the
cleaned frame, with `DateTime` already parsed — or not — to an instant). -/
structure LeadRow where
  URL : String
  DateTime : Option Int
  Make : String
  Model : String
  Model_Base : String
  slug : String
  Price : ℚ
  Year : Int
  unico_dueno : Option String
  Kilometers : Option String
  deriving DecidableEq

/-- One dashboard metrics row as projected by the join
(`df_metrics[["Make", "Model", "mean_price", "mean_year"]]`; the dashboard's
`Model` column holds the ModelBase values, renamed at `main.py` line 225). -/
structure DashRow where
  Make : String
  Model : String
  mean_price : ℚ
  mean_year : ℚ
  deriving DecidableEq

/-- One attractive-lead output row: the lead's columns plus the joined
metric columns and the opportunity indicator. -/
structure LeadOut where
  lead : LeadRow
  mean_price : ℚ
  mean_year : ℚ
  Oportunidad_Precio : ℚ
  deriving DecidableEq

/-- `pd.merge(leads, metrics_for_join, on=["Make", "Model"], how="left")`:
each lead is paired with every metric row sharing its (Make, Model) key, or
with `none` when no metric row matches. -/
def mergedPairs (leads : List LeadRow) (ms : List DashRow) :
    List (LeadRow × Option DashRow) :=
  leads.flatMap fun l =>
    let hits := ms.filter fun m => m.Make == l.Make && m.Model == l.Model
    if hits.isEmpty then [(l, none)] else hits.map fun m => (l, some m)

/-- The 24-hour window filter (`leads_last_day`): pandas comparison with
`NaT` is false. -/
def leadsLastDay (dfl : List LeadRow) (maxT : Int) : List LeadRow :=
  dfl.filter fun l =>
    match l.DateTime with
    | some t => decide (maxT - 86400 ≤ t)
    | none => false

/-- The year filter (`leads_filtered_year`): keep `Year >= 2010`. -/
def leadsYear (xs : List LeadRow) : List LeadRow :=
  xs.filter fun l => decide ((2010 : Int) ≤ l.Year)

/-- The single-owner filter (`leads_unico_dueno`):
`astype(str).str.lower() == "true"`. -/
def leadsUnico (xs : List LeadRow) : List LeadRow :=
  xs.filter fun l => pyLower (astypeStr l.unico_dueno) == "true"

/-- The price filter (`attractive_leads`): keep merged rows whose price is
strictly below the joined `mean_price`; a row with no joined metric has NaN
`mean_price` and the comparison is false. -/
def attractivePairs (xs : List LeadRow) (ms : List DashRow) :
    List (LeadRow × Option DashRow) :=
  (mergedPairs xs ms).filter fun p =>
    match p.2 with
    | some m => decide (p.1.Price < m.mean_price)
    | none => false

/-- One output row: the merged columns plus
`Oportunidad_Precio = (Price - mean_price) / mean_price`. -/
def mkLeadOut (l : LeadRow) (m : DashRow) : LeadOut :=
  { lead := l, mean_price := m.mean_price, mean_year := m.mean_year,
    Oportunidad_Precio := (l.Price - m.mean_price) / m.mean_price }

/-- The result pipeline of `filter_attractive_leads` after the in-place
dropna, on the surviving frame `dfl`: 24-hour window from the max timestamp,
year filter, single-owner filter, left-merge, price filter, opportunity
column. Each empty intermediate returns the empty frame (the surviving
filters of an empty frame are empty anyway, so the early returns are
value-preserving; they are kept for fidelity). The `Kilometers`-column
fallback of the source is schema handling with no effect here (the column
always exists in the embedding). -/
def attractiveOut (dfl : List LeadRow) (ms : List DashRow) : List LeadOut :=
  match (dfl.filterMap LeadRow.DateTime).max? with
  | none => []
  | some maxT =>
    let lld := leadsLastDay dfl maxT
    if lld.isEmpty then [] else
    let ly := leadsYear lld
    if ly.isEmpty then [] else
    let lu := leadsUnico ly
    if lu.isEmpty then [] else
    (attractivePairs lu ms).filterMap fun p => p.2.map (mkLeadOut p.1)

/-- `filter_attractive_leads` (`Core/lead_filter.py`). The first component
of the result is the post-call state of the caller's `df_leads` frame: the
function returns early (no mutation) on empty inputs, and otherwise its
in-place `to_datetime` + `dropna` leave the caller's frame holding exactly
the rows with a parseable `DateTime`. -/
def filter_attractive_leads (df_leads : List LeadRow) (df_metrics : List DashRow) :
    List LeadRow × List LeadOut :=
  if df_leads.isEmpty || df_metrics.isEmpty then (df_leads, [])
  else
    let dfl := df_leads.filter fun l => l.DateTime.isSome
    (dfl, attractiveOut dfl df_metrics)

/-- A recent listing whose raw `Model` equals its ModelBase. -/
def exLead : LeadRow :=
  { URL := "lead1", DateTime := some 1000000, Make := "Toyota", Model := "Corolla",
    Model_Base := "Corolla", slug := "toyota-corolla", Price := 8000, Year := 2020,
    unico_dueno := some "True", Kilometers := some "50000" }

/-- A recent listing whose raw `Model` ("Corolla XLE") differs from its
ModelBase ("Corolla"). -/
def exLead2 : LeadRow :=
  { URL := "lead2", DateTime := some 1000000, Make := "Toyota", Model := "Corolla XLE",
    Model_Base := "Corolla", slug := "toyota-corolla", Price := 8000, Year := 2020,
    unico_dueno := some "True", Kilometers := some "50000" }

/-- A recent listing with an unparseable `DateTime`. -/
def leadNoDT : LeadRow :=
  { URL := "lead3", DateTime := none, Make := "Toyota", Model := "Corolla",
    Model_Base := "Corolla", slug := "toyota-corolla", Price := 8000, Year := 2020,
    unico_dueno := some "True", Kilometers := some "50000" }

/-- The market metric of the Corolla slug: `mean_price = 10000`. -/
def exMetric : DashRow :=
  { Make := "Toyota", Model := "Corolla", mean_price := 10000, mean_year := 2018 }

/-- The expected attractive-lead row for `exLead` joined with `exMetric`. -/
def exOut : LeadOut :=
  { lead := exLead, mean_price := 10000, mean_year := 2018,
    Oportunidad_Precio := (8000 - 10000) / 10000 }

/-- The 24-hour recency condition as seen from outside: the post-dropna
frame has a maximal timestamp and the lead's timestamp is within one day of
it. -/
def recentOk (dfl : List LeadRow) (l : LeadRow) : Prop :=
  ∃ maxT, (dfl.filterMap LeadRow.DateTime).max? = some maxT
    ∧ ∃ t, l.DateTime = some t ∧ maxT - 86400 ≤ t

/-- A raw toyota listing (mapped make). -/
def rawToyota : RawRow :=
  { URL := some "u1", DateTime := some "2024-01-01", Make := some "Toyota",
    Model := some "Corolla Cross SE 2021", Price := some "8000", Year := some "2020",
    unico_dueno := some "True" }

/-- A raw listing of a non-target make: silently dropped by the cleaner. -/
def rawPeugeot : RawRow :=
  { URL := some "u2", DateTime := some "2024-01-01", Make := some "Peugeot",
    Model := some "308", Price := some "9000", Year := some "2018",
    unico_dueno := some "False" }

/-- The cleaned row produced from `rawToyota` with an empty rule table. -/
def cleanToyotaRow : PRow :=
  { URL := "u1", DateTime := "2024-01-01", Make := "Toyota",
    Model := "Corolla Cross SE 2021", Model_Base := "Corolla Cross SE 2021",
    slug := "toyota-corolla-cross-se-2021", Price := 8000, Year := 2020,
    unico_dueno := some "True", Apariciones_URL_Hist := 1 }

/-! ## Theorems -/

/-- Fusing the classifier's make filter into its first-match search: walking
the make-restricted rules and returning the first match is the same as
walking the whole rule list and returning the first rule that is both for
this make and matching. -/
theorem find_among_filtered (rules : List Rule) (p q : Rule → Bool) :
    (rules.filter p).find? q = rules.find? fun r => p r && q r := by
  rw [List.find?_filter]
  congr 1
  funext r
  cases hp : p r <;> cases hq : q r <;> simp [hp, hq]

/-- C1: the loaded rule table consulted by the classifier is ordered by
priority descending and, at equal priority, by pattern length descending
(also after restriction to one make); the classifier returns the
`model_base_target` of the first rule, in that order and restricted to the
listing's make, whose `match_type` test succeeds (first match wins); on the
spec's concrete scenario, the priority-10 `"corolla cross"` rule beats the
priority-5 `"corolla"` rule, so `"Corolla Cross SE 2021"` classifies as
`"Corolla Cross"`. -/
theorem rules_sorted_and_first_match_wins :
    (∀ raws : List RawRule,
      List.Sorted rulePrio (load_env_and_rules raws)
        ∧ (∀ p : Rule → Bool, List.Sorted rulePrio ((load_env_and_rules raws).filter p))
        ∧ ∀ r ∈ load_env_and_rules raws,
            r.pattern_length = r.model_pattern_input_lower.data.length)
    ∧ (∀ (model make : String) (rules : List Rule), model ≠ "Desconocido" →
        get_model_base (some model) make rules =
          match rules.find? (fun r =>
              (r.make_rule_match == pyStrip (pyLower make))
                && ruleMatches r (pyStrip (pyLower model))) with
          | some r => r.model_base_target
          | none => model)
    ∧ get_model_base (some "Corolla Cross SE 2021") "toyota" (load_env_and_rules demoRules)
        = "Corolla Cross" := by
  refine ⟨fun raws => ⟨?_, fun p => ?_, fun r hr => ?_⟩, fun model make rules hm => ?_, by decide⟩
  · exact List.sorted_insertionSort rulePrio _
  · exact (List.sorted_insertionSort rulePrio _).filter p
  · have : r ∈ raws.map normalizeRule :=
      (List.perm_insertionSort rulePrio _).subset hr
    rcases List.mem_map.mp this with ⟨raw, _, rfl⟩
    simp [normalizeRule]
  · simp only [get_model_base, if_neg hm]
    rw [find_among_filtered]

/-- C1 witness: the first-match characterization at a concrete input — with
only the generic `"corolla"` rule matching, `"Corolla LE"` classifies as
`"Corolla"`. -/
theorem rules_sorted_and_first_match_wins_witness :
    get_model_base (some "Corolla LE") "toyota" (load_env_and_rules demoRules) = "Corolla" := by
  rw [rules_sorted_and_first_match_wins.2.1 "Corolla LE" "toyota"
    (load_env_and_rules demoRules) (by decide)]
  decide

/-- C3 counterexample: the empty model string is NOT special-cased by
`get_model_base` (`main.py` line 90 only tests `pd.isna` and the sentinel):
with an empty rule table the classifier returns `""`, not `"Desconocido"`,
and the result does depend on the rule table — an empty `contains` pattern
(a whitespace-only CSV cell strips to `""`) matches the empty model. -/
theorem classify_empty_string_not_sentinel :
    get_model_base (some "") "toyota" [] = ""
      ∧ "" ≠ "Desconocido"
      ∧ get_model_base (some "") "toyota" [emptyPatternRule] = "Vacio" := by
  exact ⟨by decide, by decide, by decide⟩

/-- C3 amended: the classifier returns the `"Desconocido"` sentinel, without
any rule lookup (the result is the same for every rule table), exactly when
the model is null (NaN) or is already the sentinel; an empty model string
instead goes through the normal rule walk and, with no matching rule, is
returned unchanged (empty). -/
theorem classify_nan_and_sentinel_terminal (make : String) (rules : List Rule) :
    get_model_base none make rules = "Desconocido"
      ∧ get_model_base (some "Desconocido") make rules = "Desconocido"
      ∧ get_model_base (some "") make [] = "" := by
  refine ⟨rfl, by simp [get_model_base], rfl⟩

/-- C4 counterexample: the no-rule-matches fallback of `get_model_base`
(`main.py` line 100) returns the raw model string verbatim — it is neither
trimmed nor title-cased. -/
theorem classify_fallback_not_titlecased :
    get_model_base (some " corolla gli ") "toyota" [] = " corolla gli "
      ∧ " corolla gli " ≠ pyTitle (pyStrip " corolla gli ")
      ∧ pyTitle (pyStrip " corolla gli ") = "Corolla Gli" := by
  exact ⟨by decide, by decide, by decide⟩

/-- C4 amended: for a non-null model that is not the sentinel and that no
rule of its make matches, the classifier returns the raw model string
itself, unchanged (original casing and whitespace), as its own ModelBase —
the unmatched input becomes a singleton category rather than being dropped
or merged. -/
theorem classify_fallback_returns_model_verbatim (model make : String) (rules : List Rule)
    (hm : model ≠ "Desconocido")
    (hnone : ∀ r ∈ rules,
      ((r.make_rule_match == pyStrip (pyLower make))
          && ruleMatches r (pyStrip (pyLower model))) = false) :
    get_model_base (some model) make rules = model := by
  simp only [get_model_base, if_neg hm]
  rw [find_among_filtered]
  rw [List.find?_eq_none.mpr fun r hr => by simp [hnone r hr]]

/-- C4 witness: `" corolla gli "` matches no rule of a table holding only the
toyota `"tracker"` rule, so it is returned verbatim. -/
theorem classify_fallback_returns_model_verbatim_witness :
    get_model_base (some " corolla gli ") "toyota" [trackerRuleToyota]
      = " corolla gli " :=
  classify_fallback_returns_model_verbatim " corolla gli " "toyota"
    [trackerRuleToyota] (by decide) (by decide)

/-- C8: classification is make-scoped. Removing every rule registered for a
different make never changes the classifier's result, and concretely a
`"tracker"` rule registered only for `"toyota"` does not fire when the make
is `"honda"`, even though its pattern text matches the model. -/
theorem classify_is_make_scoped :
    (∀ (model : Option String) (make : String) (rules : List Rule),
      get_model_base model make
          (rules.filter fun r => r.make_rule_match == pyStrip (pyLower make))
        = get_model_base model make rules)
    ∧ get_model_base (some "tracker") "honda" [trackerRuleToyota] = "tracker" := by
  refine ⟨fun model make rules => ?_, by decide⟩
  match model with
  | none => rfl
  | some m =>
    by_cases hm : m = "Desconocido"
    · simp [get_model_base, hm]
    · simp only [get_model_base, if_neg hm]
      rw [List.filter_filter]
      simp only [Bool.and_self]

/-- C5 counterexample: priorities are NOT defaulted to 0 by `main.py`'s
`load_rules`. In a source with priorities `"5"`, `"high"` (non-numeric) and
a missing cell, the row with the unparseable priority is kept carrying the
verbatim TEXT `"high"` — not the number 0 — and the sort compares priorities
as strings, placing it FIRST, ahead of the priority-5 rule (string order has
`"high" > "5"`), with the missing-priority row last; with a default of 0 the
`"high"` row would instead sort after the priority-5 rule. -/
theorem load_rules_sorts_unparseable_priority_as_text :
    load_rules [rowNumPriority, rowTxtPriority, rowMissingPriority]
        = [normalizeRuleM false rowTxtPriority, normalizeRuleM false rowNumPriority,
           normalizeRuleM false rowMissingPriority]
      ∧ (normalizeRuleM false rowTxtPriority).priority = PCell.txt "high"
      ∧ PCell.txt "high" ≠ PCell.num 0
      ∧ (normalizeRuleM false rowMissingPriority).priority = PCell.nan
      ∧ (load_rules [rowNumPriority, rowTxtPriority, rowMissingPriority]).length = 3 := by
  exact ⟨by decide, by decide, by decide, by decide, by decide⟩

/-- C5 amended: loading a rule source whose `priority` field is non-numeric
on some row still succeeds and keeps every row — the loaded table is a
permutation of the normalized source rows, so the load never fails and the
table never degrades to empty — but nothing defaults to 0: `read_csv`
leaves the whole column as text, so every loaded rule carries its priority
cell verbatim as a string (missing cells stay NaN and sort last), and rule
order compares priorities as strings. (Only the daily loader,
`Core/supabase_downloader_daily.py` line 69, coerces priority with a 0
default.) -/
theorem load_rules_keeps_rows_without_defaulting (raws : List RawRuleM)
    (hbad : ∃ r ∈ raws, r.priority.isSome = true ∧ r.priority.bind parseIntStr = none) :
    (load_rules raws).Perm (raws.map (normalizeRuleM (priorityColumnNumeric raws)))
      ∧ (load_rules raws).length = raws.length
      ∧ ∀ r ∈ load_rules raws,
          (∃ s, r.priority = PCell.txt s) ∨ r.priority = PCell.nan := by
  have hload : load_rules raws
      = List.insertionSort ruleMPrio (raws.map (normalizeRuleM (priorityColumnNumeric raws))) :=
    rfl
  have hnum : priorityColumnNumeric raws = false := by
    obtain ⟨r0, hr0, hsome, hparse⟩ := hbad
    rcases Option.isSome_iff_exists.mp hsome with ⟨s0, hs0⟩
    rw [hs0] at hparse
    simp only [Option.some_bind] at hparse
    simp only [priorityColumnNumeric, List.all_eq_false]
    exact ⟨r0, hr0, by simp [hs0, hparse]⟩
  refine ⟨?_, ?_, ?_⟩
  · rw [hload]; exact List.perm_insertionSort _ _
  · rw [hload, (List.perm_insertionSort _ _).length_eq, List.length_map]
  · intro r hr
    rw [hload] at hr
    have : r ∈ raws.map (normalizeRuleM (priorityColumnNumeric raws)) :=
      (List.perm_insertionSort _ _).subset hr
    rcases List.mem_map.mp this with ⟨raw, hraw, rfl⟩
    cases hs : raw.priority with
    | none => exact Or.inr (by simp [normalizeRuleM, inferPriorityCell, hs])
    | some s => exact Or.inl ⟨s, by simp [normalizeRuleM, inferPriorityCell, hs, hnum]⟩

/-- C5 witness: a source with priorities `"5"`, `"high"` and a missing cell
loads with all three rows kept. -/
theorem load_rules_keeps_rows_without_defaulting_witness :
    (load_rules [rowNumPriority, rowTxtPriority, rowMissingPriority]).length = 3 :=
  (load_rules_keeps_rows_without_defaulting
    [rowNumPriority, rowTxtPriority, rowMissingPriority] (by decide)).2.1

/-- C6 counterexample: with one URL observed under two different — both
classifiable — model bases, the group-wise `unique_listings` sum counts that
URL once per group: the sum is 2 while the whole collection has 1 distinct
URL, even though every listing's model base differs from the `"Desconocido"`
sentinel. -/
theorem unique_listings_sum_overcounts_split_url :
    (((calculate_metrics [pr1, pr2]).map (·.unique_listings)).sum = 2)
      ∧ (([pr1, pr2].map PRow.URL).dedup.length = 1)
      ∧ pr1.Model_Base ≠ "Desconocido" ∧ pr2.Model_Base ≠ "Desconocido" := by
  exact ⟨by decide, by decide, by decide, by decide⟩

/-- C6 amended: when every URL of the cleaned collection appears under a
single (Make, ModelBase, slug) key — in particular no URL is observed under
two different model bases — the group-wise `unique_listings` values sum to
the number of distinct URLs of the whole collection: no URL is counted in
more than one group, and within a group a URL observed many times counts
once. -/
theorem unique_listings_sum_eq_distinct_urls (df : List PRow)
    (h : ∀ r ∈ df, ∀ t ∈ df, r.URL = t.URL → rowKey r = rowKey t) :
    ((calculate_metrics df).map (·.unique_listings)).sum
      = (df.map PRow.URL).dedup.length := by
  classical
  have hmap : (calculate_metrics df).map (·.unique_listings)
      = ((df.map rowKey).dedup).map
          fun k => ((df.filter fun r => rowKey r == k).map PRow.URL).dedup.length := by
    simp [calculate_metrics, List.map_map, Function.comp]
  rw [hmap]
  set U : String × String × String → Finset String :=
    fun k => ((df.filter fun r => rowKey r == k).map PRow.URL).toFinset with hU
  set K : Finset (String × String × String) := (df.map rowKey).toFinset with hK
  have hKd : ((df.map rowKey).dedup).toFinset = K := by
    ext k; simp [hK, List.mem_dedup]
  have hsum : (((df.map rowKey).dedup).map
        (fun k => ((df.filter fun r => rowKey r == k).map PRow.URL).dedup.length)).sum
      = K.sum fun k => (U k).card := by
    rw [← List.sum_toFinset _ (List.nodup_dedup _), hKd]
    apply Finset.sum_congr rfl
    intro k _
    rw [hU, List.card_toFinset]
  rw [hsum]
  have hdisj : ∀ k1 ∈ K, ∀ k2 ∈ K, k1 ≠ k2 → Disjoint (U k1) (U k2) := by
    intro k1 _ k2 _ hne
    rw [Finset.disjoint_left]
    intro u hu1 hu2
    rw [hU] at hu1 hu2
    simp only [List.mem_toFinset, List.mem_map, List.mem_filter, beq_iff_eq] at hu1 hu2
    rcases hu1 with ⟨r, ⟨hr, hk1⟩, hur⟩
    rcases hu2 with ⟨t, ⟨ht, hk2⟩, hut⟩
    exact hne (hk1 ▸ hk2 ▸ h r hr t ht (hur.trans hut.symm))
  have hbi : K.biUnion U = (df.map PRow.URL).toFinset := by
    ext u
    simp only [Finset.mem_biUnion, hU, hK, List.mem_toFinset, List.mem_map,
      List.mem_filter, beq_iff_eq]
    constructor
    · rintro ⟨k, _, r, ⟨hr, _⟩, hur⟩
      exact ⟨r, hr, hur⟩
    · rintro ⟨r, hr, hur⟩
      exact ⟨rowKey r, ⟨r, hr, rfl⟩, r, ⟨hr, rfl⟩, hur⟩
  rw [← Finset.card_biUnion hdisj, hbi, List.card_toFinset]

/-- C6 witness: on a concrete key-consistent collection the group-wise
`unique_listings` sum equals the distinct-URL count. -/
theorem unique_listings_sum_eq_distinct_urls_witness :
    ((calculate_metrics [w1, w2, w3]).map (·.unique_listings)).sum
      = ([w1, w2, w3].map PRow.URL).dedup.length :=
  unique_listings_sum_eq_distinct_urls [w1, w2, w3] (by decide)

/-- C7: for a slug group with at least one distinct URL, the fast-selling
ratio equals (URLs appearing exactly once in the group) / (distinct URLs in
the group), and therefore lies in [0, 1]. -/
theorem fsr_formula_and_bounds (df : List PRow) (s : String)
    (h : 0 < ((df.filter fun r => r.slug == s).map PRow.URL).dedup.length) :
    fsrOfSlug df s
        = ((((df.filter fun r => r.slug == s).map PRow.URL).dedup.filter
              fun u => ((df.filter fun r => r.slug == s).map PRow.URL).count u == 1).length : ℚ)
          / (((df.filter fun r => r.slug == s).map PRow.URL).dedup.length : ℚ)
      ∧ 0 ≤ fsrOfSlug df s ∧ fsrOfSlug df s ≤ 1 := by
  have heq : fsrOfSlug df s
      = ((((df.filter fun r => r.slug == s).map PRow.URL).dedup.filter
            fun u => ((df.filter fun r => r.slug == s).map PRow.URL).count u == 1).length : ℚ)
        / (((df.filter fun r => r.slug == s).map PRow.URL).dedup.length : ℚ) := by
    simp only [fsrOfSlug]
    rw [if_pos h]
  refine ⟨heq, ?_, ?_⟩
  · rw [heq]; positivity
  · rw [heq]
    rw [div_le_one (by exact_mod_cast h)]
    exact_mod_cast List.length_filter_le _ _

/-- C7 witness: in the group of slug `"toyota-corolla"` of `[w1, w2, w3]`,
`"u1"` appears twice and is the only distinct URL, and the bounds hold. -/
theorem fsr_formula_and_bounds_witness :
    0 ≤ fsrOfSlug [w1, w2, w3] "toyota-corolla"
      ∧ fsrOfSlug [w1, w2, w3] "toyota-corolla" ≤ 1 :=
  (fsr_formula_and_bounds [w1, w2, w3] "toyota-corolla" (by decide)).2

/-- C2 counterexample: a recent, post-2010, single-owner listing whose
(Make, ModelBase) pair matches a metric row with `mean_price` above its
price — so a join on (Make, ModelBase) would keep it — is dropped by the
code: the merge of `Core/lead_filter.py` joins the lead's raw `Model`
column ("Corolla XLE") against the metric's `Model` column (the ModelBase
"Corolla"), finds no match, and the NaN `mean_price` fails the price test. -/
theorem lead_dropped_despite_modelbase_match :
    (filter_attractive_leads [exLead2] [exMetric]).2 = []
      ∧ exMetric.Make = exLead2.Make
      ∧ exMetric.Model = exLead2.Model_Base
      ∧ exLead2.Price < exMetric.mean_price
      ∧ 2010 ≤ exLead2.Year
      ∧ pyLower (astypeStr exLead2.unico_dueno) = "true" := by
  exact ⟨rfl, rfl, rfl, by decide, by decide, by decide⟩

/-- C9 counterexample: called with a nonempty metrics frame and a leads
frame holding one row with unparseable `DateTime`, `filter_attractive_leads`
leaves the caller's leads frame empty — the row set of the input collection
changed. -/
theorem lead_filter_mutation_counterexample :
    (filter_attractive_leads [leadNoDT] [exMetric]).1 = []
      ∧ [leadNoDT] ≠ ([] : List LeadRow) := by
  exact ⟨rfl, by decide⟩

/-- C9 amended: the cleaning and aggregation stages copy their inputs
(`df_raw.copy()` in `process_data`, fresh frames in `calculate_metrics`), but
`filter_attractive_leads` mutates the recent-listings frame it receives:
unless it returns early on an empty input, its in-place `to_datetime` and
`dropna` leave the caller's collection holding exactly the rows whose
`DateTime` parses — rows with unparseable timestamps are removed from the
caller's frame. -/
theorem lead_filter_input_state (df_leads : List LeadRow) (df_metrics : List DashRow) :
    (filter_attractive_leads df_leads df_metrics).1
      = if df_leads.isEmpty || df_metrics.isEmpty then df_leads
        else df_leads.filter fun l => l.DateTime.isSome := by
  unfold filter_attractive_leads
  by_cases h : (df_leads.isEmpty || df_metrics.isEmpty) = true
  · rw [if_pos h, if_pos h]
  · rw [if_neg h, if_neg h]

/-- The window filter predicate in propositional form. -/
theorem dtWindow_eq_true (l : LeadRow) (c : Int) :
    ((match l.DateTime with | some t => decide (c ≤ t) | none => false) = true)
      ↔ ∃ t, l.DateTime = some t ∧ c ≤ t := by
  cases h : l.DateTime <;> simp [h]

/-- Membership in the left-merge with a present right side: the lead is in
the left frame and the metric row matches its (Make, Model) key. -/
theorem mem_mergedPairs_some (L : List LeadRow) (ms : List DashRow)
    (l : LeadRow) (m : DashRow) :
    (l, some m) ∈ mergedPairs L ms
      ↔ l ∈ L ∧ m ∈ ms ∧ m.Make = l.Make ∧ m.Model = l.Model := by
  simp only [mergedPairs, List.mem_flatMap]
  constructor
  · rintro ⟨a, ha, hmem⟩
    by_cases hh : (ms.filter fun m0 => m0.Make == a.Make && m0.Model == a.Model).isEmpty = true
    · rw [if_pos hh] at hmem
      simp at hmem
    · rw [if_neg hh] at hmem
      rcases List.mem_map.mp hmem with ⟨m0, hm0, heq⟩
      rw [Prod.mk.injEq] at heq
      obtain ⟨rfl, heq2⟩ := heq
      obtain rfl := Option.some.inj heq2
      rw [List.mem_filter, Bool.and_eq_true, beq_iff_eq, beq_iff_eq] at hm0
      exact ⟨ha, hm0.1, hm0.2.1, hm0.2.2⟩
  · rintro ⟨hl, hm, hmk, hmd⟩
    refine ⟨l, hl, ?_⟩
    have hmem0 : m ∈ ms.filter fun m0 => m0.Make == l.Make && m0.Model == l.Model := by
      rw [List.mem_filter]
      exact ⟨hm, by simp [hmk, hmd]⟩
    rw [if_neg (by intro hc; rw [List.isEmpty_iff] at hc; rw [hc] at hmem0; simp at hmem0)]
    exact List.mem_map.mpr ⟨m, hmem0, rfl⟩

/-- Membership in the final output: some merged pair with a present metric
passed the price filter and produced the row. -/
theorem mem_attractive_output (lu : List LeadRow) (ms : List DashRow) (o : LeadOut) :
    o ∈ (attractivePairs lu ms).filterMap (fun p => p.2.map (mkLeadOut p.1))
      ↔ ∃ l m, (l, some m) ∈ mergedPairs lu ms ∧ l.Price < m.mean_price
          ∧ o = mkLeadOut l m := by
  rw [List.mem_filterMap]
  constructor
  · rintro ⟨⟨l, po⟩, hp, hmap⟩
    rw [attractivePairs, List.mem_filter] at hp
    obtain ⟨hmm, hcond⟩ := hp
    cases po with
    | none => simp at hmap
    | some m =>
      simp only [Option.map_some] at hmap
      refine ⟨l, m, hmm, by simpa using hcond, (Option.some.inj hmap).symm⟩
  · rintro ⟨l, m, hmm, hlt, rfl⟩
    refine ⟨(l, some m), ?_, rfl⟩
    rw [attractivePairs, List.mem_filter]
    exact ⟨hmm, by simpa using hlt⟩

/-- Membership in the survivors of the window, year and single-owner
filters. -/
theorem mem_leads_pipeline (dfl : List LeadRow) (maxT : Int) (l : LeadRow) :
    l ∈ leadsUnico (leadsYear (leadsLastDay dfl maxT))
      ↔ l ∈ dfl ∧ (∃ t, l.DateTime = some t ∧ maxT - 86400 ≤ t)
          ∧ 2010 ≤ l.Year ∧ pyLower (astypeStr l.unico_dueno) = "true" := by
  simp only [leadsUnico, leadsYear, leadsLastDay, List.mem_filter, dtWindow_eq_true,
    decide_eq_true_eq, beq_iff_eq]
  tauto

/-- Full membership characterization of the lead filter's result pipeline on
the post-dropna frame. -/
theorem mem_attractiveOut (dfl : List LeadRow) (ms : List DashRow) (o : LeadOut) :
    o ∈ attractiveOut dfl ms
      ↔ ∃ l ∈ dfl, recentOk dfl l ∧ 2010 ≤ l.Year
          ∧ pyLower (astypeStr l.unico_dueno) = "true"
          ∧ ∃ m ∈ ms, m.Make = l.Make ∧ m.Model = l.Model ∧ l.Price < m.mean_price
              ∧ o = mkLeadOut l m := by
  unfold attractiveOut
  cases hmax : (dfl.filterMap LeadRow.DateTime).max? with
  | none =>
    simp only [List.not_mem_nil, false_iff]
    rintro ⟨l, hl, ⟨maxT, hmax2, -⟩, -⟩
    rw [hmax] at hmax2
    cases hmax2
  | some maxT =>
    dsimp only
    have hrec : ∀ l, l ∈ dfl →
        (recentOk dfl l ↔ ∃ t, l.DateTime = some t ∧ maxT - 86400 ≤ t) := by
      intro l _
      constructor
      · rintro ⟨maxT2, hmax2, ht⟩
        rw [hmax] at hmax2
        obtain rfl := Option.some.inj hmax2
        exact ht
      · intro ht
        exact ⟨maxT, hmax, ht⟩
    by_cases h1 : (leadsLastDay dfl maxT).isEmpty = true
    · rw [if_pos h1]
      simp only [List.not_mem_nil, false_iff]
      rintro ⟨l, hl, hr, hy, hu, -⟩
      have hwin := (hrec l hl).mp hr
      have hmem : l ∈ leadsLastDay dfl maxT := by
        rw [leadsLastDay, List.mem_filter]
        exact ⟨hl, (dtWindow_eq_true l _).mpr hwin⟩
      rw [List.isEmpty_iff] at h1
      rw [h1] at hmem
      simp at hmem
    · rw [if_neg h1]
      by_cases h2 : (leadsYear (leadsLastDay dfl maxT)).isEmpty = true
      · rw [if_pos h2]
        simp only [List.not_mem_nil, false_iff]
        rintro ⟨l, hl, hr, hy, hu, -⟩
        have hmem : l ∈ leadsYear (leadsLastDay dfl maxT) := by
          rw [leadsYear, List.mem_filter]
          refine ⟨?_, by simpa using hy⟩
          rw [leadsLastDay, List.mem_filter]
          exact ⟨hl, (dtWindow_eq_true l _).mpr ((hrec l hl).mp hr)⟩
        rw [List.isEmpty_iff] at h2
        rw [h2] at hmem
        simp at hmem
      · rw [if_neg h2]
        by_cases h3 : (leadsUnico (leadsYear (leadsLastDay dfl maxT))).isEmpty = true
        · rw [if_pos h3]
          simp only [List.not_mem_nil, false_iff]
          rintro ⟨l, hl, hr, hy, hu, -⟩
          have hmem : l ∈ leadsUnico (leadsYear (leadsLastDay dfl maxT)) :=
            (mem_leads_pipeline dfl maxT l).mpr ⟨hl, (hrec l hl).mp hr, hy, hu⟩
          rw [List.isEmpty_iff] at h3
          rw [h3] at hmem
          simp at hmem
        · rw [if_neg h3, mem_attractive_output]
          constructor
          · rintro ⟨l, m, hmm, hlt, rfl⟩
            rw [mem_mergedPairs_some] at hmm
            obtain ⟨hlu, hm, hmk, hmd⟩ := hmm
            obtain ⟨hl, hwin, hy, hu⟩ := (mem_leads_pipeline dfl maxT l).mp hlu
            exact ⟨l, hl, (hrec l hl).mpr hwin, hy, hu, m, hm, hmk, hmd, hlt, rfl⟩
          · rintro ⟨l, hl, hr, hy, hu, m, hm, hmk, hmd, hlt, rfl⟩
            refine ⟨l, m, ?_, hlt, rfl⟩
            rw [mem_mergedPairs_some]
            exact ⟨(mem_leads_pipeline dfl maxT l).mpr ⟨hl, (hrec l hl).mp hr, hy, hu⟩,
              hm, hmk, hmd⟩

/-- C2 amended: after the recency, year and single-owner filters, every
surviving listing is left-joined to the metrics frame on (Make, Model) —
where the lead's `Model` column holds the RAW model string while the
metrics' `Model` column holds the ModelBase — kept exactly when its price is
strictly below the joined `mean_price`, and annotated with
`Oportunidad_Precio = (price - mean_price) / mean_price`; the claim's
concrete scenario holds when the listing's raw model coincides with its
ModelBase: a recent single-owner 2020 listing with price 8000 joined to a
mean of 10000 is included with ratio -0.20. -/
theorem lead_filter_joins_on_raw_model :
    (∀ (leads : List LeadRow) (ms : List DashRow) (o : LeadOut),
      leads ≠ [] → ms ≠ [] →
      (o ∈ (filter_attractive_leads leads ms).2 ↔
        ∃ l ∈ leads.filter (fun x => x.DateTime.isSome),
          recentOk (leads.filter fun x => x.DateTime.isSome) l
            ∧ 2010 ≤ l.Year ∧ pyLower (astypeStr l.unico_dueno) = "true"
            ∧ ∃ m ∈ ms, m.Make = l.Make ∧ m.Model = l.Model ∧ l.Price < m.mean_price
                ∧ o = mkLeadOut l m))
    ∧ (filter_attractive_leads [exLead] [exMetric]).2 = [exOut]
    ∧ exOut.Oportunidad_Precio = -1/5
    ∧ exLead.Model = exLead.Model_Base := by
  refine ⟨fun leads ms o hl hm => ?_, rfl, by norm_num [exOut], rfl⟩
  unfold filter_attractive_leads
  rw [if_neg (by simp [List.isEmpty_iff, hl, hm])]
  exact mem_attractiveOut _ ms o

/-- C2 witness: the concrete scenario through the characterization — the
expected output row is a member of the result. -/
theorem lead_filter_joins_on_raw_model_witness :
    exOut ∈ (filter_attractive_leads [exLead] [exMetric]).2 :=
  (lead_filter_joins_on_raw_model.1 [exLead] [exMetric] exOut
      (by decide) (by decide)).mpr
    ⟨exLead, by decide, ⟨1000000, rfl, 1000000, rfl, by decide⟩, by decide, by decide,
      exMetric, by decide, rfl, rfl, by decide, rfl⟩

/-! ### The target-make invariant (C10) -/

/-- Rows kept by the (URL, DateTime) deduplication come from the input. -/
theorem dropDuplicatesUD_subset :
    ∀ (seen : List (Option String × Option String)) (l : List SRow) (r : SRow),
      r ∈ dropDuplicatesUD seen l → r ∈ l := by
  intro seen l
  induction l generalizing seen with
  | nil => intro r hr; simp [dropDuplicatesUD] at hr
  | cons a l ih =>
    intro r hr
    unfold dropDuplicatesUD at hr
    by_cases hmem : (a.URL, a.DateTime) ∈ seen
    · rw [if_pos hmem] at hr
      exact List.mem_cons_of_mem a (ih seen r hr)
    · rw [if_neg hmem] at hr
      rcases List.mem_cons.mp hr with rfl | hr2
      · exact List.mem_cons_self _ _
      · exact List.mem_cons_of_mem a (ih _ r hr2)

/-- C10 counterexample: `TARGET_MAKE_MAPPING` has 20 synonym keys but only
17 distinct values — the hard-coded target-brand set has 17 members, not
19. -/
theorem target_make_set_has_17_values :
    STANDARDIZED_TARGET_MAKES
        = ["audi", "bmw", "chevrolet", "ford", "honda", "hyundai", "jeep", "kia",
           "mazda", "mercedes", "mitsubishi", "nissan", "subaru", "suzuki", "toyota",
           "volkswagen", "volvo"]
      ∧ STANDARDIZED_TARGET_MAKES.length = 17
      ∧ STANDARDIZED_TARGET_MAKES.length ≠ 19
      ∧ TARGET_MAKE_MAPPING.length = 20 := by
  exact ⟨by decide, by decide, by decide, by decide⟩

/-- C10 amended: the cleaning stage keeps exactly the listings whose
canonical make belongs to the fixed hard-coded set of 17 target brands (the
distinct values of `TARGET_MAKE_MAPPING`); every other make — including
unmapped makes that pass through lowercased — is silently dropped, so every
row of the cleaned output has a make in that set, every market metric's
make comes from a cleaned row, and every attractive lead is one of the
caller's lead rows (whose makes come from the cleaned frame). -/
theorem target_make_invariant :
    STANDARDIZED_TARGET_MAKES.length = 17
      ∧ (∀ (rules : List Rule) (raws : List RawRow) (out : List PRow),
          process_data rules raws = Except.ok out →
          ∀ r ∈ out, STANDARDIZED_TARGET_MAKES.contains (pyLower r.Make) = true)
      ∧ (∀ df : List PRow, ∀ m ∈ calculate_metrics df,
          ∃ r ∈ df, m.make_original_case = r.Make)
      ∧ (∀ (leads : List LeadRow) (ms : List DashRow),
          ∀ o ∈ (filter_attractive_leads leads ms).2, o.lead ∈ leads) := by
  refine ⟨by decide, ?_, ?_, ?_⟩
  · intro rules raws out h r hr
    unfold process_data at h
    by_cases hguard : (raws.any fun r => r.Make.isNone) = true
    · rw [if_pos hguard] at h
      cases h
    · rw [if_neg hguard] at h
      injection h with h
      subst h
      rcases List.mem_map.mp hr with ⟨r0, hr0, rfl⟩
      rcases List.mem_filterMap.mp hr0 with ⟨s, hs, hfin⟩
      have hmake : r0.Make = s.Make := by
        simp only [finalizeRow] at hfin
        split at hfin
        · obtain rfl := Option.some.inj hfin
          rfl
        · cases hfin
      have hsf := dropDuplicatesUD_subset _ _ _ hs
      rw [List.mem_filter] at hsf
      simpa [hmake] using hsf.2
  · intro df m hm
    rcases List.mem_map.mp hm with ⟨k, hk, rfl⟩
    rcases List.mem_map.mp (List.mem_dedup.mp hk) with ⟨r, hr, rfl⟩
    exact ⟨r, hr, rfl⟩
  · intro leads ms o ho
    unfold filter_attractive_leads at ho
    by_cases hguard : (leads.isEmpty || ms.isEmpty) = true
    · rw [if_pos hguard] at ho
      simp at ho
    · rw [if_neg hguard] at ho
      rcases (mem_attractiveOut _ ms o).mp ho with ⟨l, hl, -, -, -, m, -, -, -, -, rfl⟩
      exact List.mem_of_mem_filter hl

/-- C10 witness: a concrete run — the peugeot listing is dropped, the
toyota listing survives with its make in the target set. -/
theorem target_make_invariant_witness :
    STANDARDIZED_TARGET_MAKES.contains (pyLower cleanToyotaRow.Make) = true :=
  target_make_invariant.2.1 [] [rawToyota, rawPeugeot] [cleanToyotaRow]
    (by rfl) cleanToyotaRow (by decide)

end Neoauto

